import Mathlib

/-!
Verification development for the dehydrated-device lifecycle and the
to-device decryption/trust-evaluation pipeline of the matrix-rust-sdk
crypto crate.

The definitions below are a shallow embedding of the Rust code in
`crates/matrix-sdk-crypto/src/dehydrated_devices.rs` and of the
to-device classifier it shares with the live sync path.  Pure data is
embedded as Lean structures; the stateful store operations are embedded
as explicit state-passing functions over a `MachineStore` value; the
ordered store effects of `RehydratedDevice::receive_events` are embedded
as an explicit trace of `StoreOp` events.  Cryptographic primitives
supplied by the external vodozemac library (olm encryption, pickling)
are embedded as ideal ciphers: a ciphertext is the pair of the key and
the plaintext, and decryption succeeds exactly when the same key is
presented.
-/

namespace MatrixSdkCrypto

/-- A room key, i.e. an inbound group session: decryption key material
for a room message stream, addressed by room id and session id. -/
structure RoomKey where
  roomId : String
  sessionId : String
  keyMaterial : String
  deriving DecidableEq, Repr

/-- The symmetric key protecting a dehydrated device's private key
material; `DehydratedDeviceKey` in the store types.  Its external
representation is exactly 32 raw bytes. -/
structure DehydratedDeviceKey where
  inner : List Nat
  deriving DecidableEq, Repr

/-- Error type for device dehydration issues, mirroring the
`DehydrationError` enum of `dehydrated_devices.rs`. -/
inductive DehydrationError where
  /-- The legacy dehydrated device could not be unpickled. -/
  | legacyPickle : DehydrationError
  /-- The dehydrated device could not be unpickled. -/
  | pickle : DehydrationError
  /-- The pickle key has an invalid length: expected 32 bytes, got the
  reported count. -/
  | pickleKeyLength : Nat → DehydrationError
  /-- The self-signing key is missing, so the dehydrated device could
  not be signed by the user identity. -/
  | missingSigningKey : DehydrationError
  /-- The dehydrated device data could not be deserialized. -/
  | json : DehydrationError
  /-- The store ran into an error. -/
  | store : DehydrationError
  deriving DecidableEq, Repr

/-- Modelled from the spec: `DehydratedDeviceKey::from_slice` is not
under `src/`; the spec requires that constructing a pickle key from a
byte sequence of length other than 32 always fails reporting the actual
length, and that exactly 32 bytes succeed. -/
def DehydratedDeviceKey.from_slice (bytes : List Nat) :
    Except DehydrationError DehydratedDeviceKey :=
  if bytes.length = 32 then .ok ⟨bytes⟩
  else .error (.pickleKeyLength bytes.length)

/-- Test whether a stored inbound group session is addressed by the
given room id and session id. -/
def sessionMatches (roomId sessionId : String) (k : RoomKey) : Bool :=
  k.roomId == roomId && k.sessionId == sessionId

/-- The persisted state of one identity's crypto store that the claims
touch: the inbound group sessions and the cached dehydrated-device
pickle key.  Modelled from the spec for the store internals (the
`CryptoStore` implementation is not under `src/`); the transactional
wrappers in `dehydrated_devices.rs` delegate to it. -/
structure MachineStore where
  inboundGroupSessions : List RoomKey
  pickleKeyCache : Option DehydratedDeviceKey
  deriving DecidableEq, Repr

/-- A store holding no sessions and no cached pickle key: the state
before any save. -/
def MachineStore.empty : MachineStore :=
  { inboundGroupSessions := [], pickleKeyCache := none }

/-- Look up an inbound group session by room id and session id,
mirroring `store().get_inbound_group_session(room_id, session_id)`. -/
def get_inbound_group_session (s : MachineStore) (roomId sessionId : String) :
    Option RoomKey :=
  s.inboundGroupSessions.find? (sessionMatches roomId sessionId)

/-- Insert one inbound group session, keeping the import idempotent: a
session already known under the same (room id, session id) address is
kept as it is. -/
def upsertSession (sessions : List RoomKey) (k : RoomKey) : List RoomKey :=
  if sessions.any (sessionMatches k.roomId k.sessionId) then sessions
  else sessions ++ [k]

/-- Save a batch of inbound group sessions into a store, mirroring
`store().save_inbound_group_sessions(room_keys)`. -/
def save_inbound_group_sessions (s : MachineStore) (keys : List RoomKey) :
    MachineStore :=
  { s with inboundGroupSessions := keys.foldl upsertSession s.inboundGroupSessions }

/-- The `Changes` accumulator of the store types, restricted to the
fields the claims touch. -/
structure Changes where
  inbound_group_sessions : List RoomKey
  dehydrated_device_pickle_key : Option DehydratedDeviceKey
  deriving DecidableEq, Repr

/-- The default `Changes` value: nothing to change. -/
def Changes.default : Changes :=
  { inbound_group_sessions := [], dehydrated_device_pickle_key := none }

/-- Apply a `Changes` value to a store, mirroring
`store().save_changes(changes)`: sessions are imported and the pickle
key is overwritten when one is present. -/
def save_changes (s : MachineStore) (c : Changes) : MachineStore :=
  let s := save_inbound_group_sessions s c.inbound_group_sessions
  match c.dehydrated_device_pickle_key with
  | some k => { s with pickleKeyCache := some k }
  | none => s

/-- Read back the cached pickle key, mirroring
`store().load_dehydrated_device_pickle_key()`. -/
def load_dehydrated_device_pickle_key (s : MachineStore) :
    Option DehydratedDeviceKey :=
  s.pickleKeyCache

/-- `DehydratedDevices::get_dehydrated_device_pickle_key`: returns the
cached key, if any. -/
def get_dehydrated_device_pickle_key (s : MachineStore) :
    Option DehydratedDeviceKey :=
  load_dehydrated_device_pickle_key s

/-- `DehydratedDevices::save_dehydrated_device_pickle_key`: stores the
pickle key through a `Changes` value with only the pickle-key field
set. -/
def save_dehydrated_device_pickle_key (s : MachineStore)
    (dehydratedDevicePickleKey : DehydratedDeviceKey) : MachineStore :=
  save_changes s
    { Changes.default with
        dehydrated_device_pickle_key := some dehydratedDevicePickleKey }

/-- `DehydratedDevices::delete_dehydrated_device_pickle_key`: removes
the cached pickle key. -/
def delete_dehydrated_device_pickle_key (s : MachineStore) : MachineStore :=
  { s with pickleKeyCache := none }

/-- Modelled from the spec: the `Account` type with its key material is
not under `src/`.  A dehydrated identity owns a device id, a pool of
published one-time keys, an optional fallback key and the marker that
it was created dehydrated. -/
structure DehydratedAccount where
  deviceId : String
  oneTimeKeys : List String
  fallbackKey : Option String
  dehydratedFlag : Bool
  deriving DecidableEq, Repr

/-- The number of one-time keys a fresh account publishes.  Modelled
from the spec: a fresh dehydrated identity publishes one-time keys so
other devices can start 1-to-1 sessions with it. -/
def maxOneTimeKeys : Nat := 50

namespace Account

/-- Modelled from the spec: `Account::new_dehydrated` is not under
`src/`; it generates a fresh device identity flagged as dehydrated with
a pool of one-time keys and no fallback key yet. -/
def new_dehydrated (deviceId : String) : DehydratedAccount :=
  { deviceId := deviceId
    oneTimeKeys := (List.range maxOneTimeKeys).map (fun i => toString i)
    fallbackKey := none
    dehydratedFlag := true }

/-- Modelled from the spec: `Account::generate_fallback_key_if_needed`
is not under `src/`; it is idempotent, generating a fallback key only
when none is present. -/
def generate_fallback_key_if_needed (a : DehydratedAccount) : DehydratedAccount :=
  match a.fallbackKey with
  | some _ => a
  | none => { a with fallbackKey := some "generated-fallback-key" }

end Account

/-- The device-keys structure collected for upload, before signing.
The `dehydrated` field is the `dehydrated: true` marker carried for a
dehydrated account. -/
structure DeviceKeysOut where
  device_id : String
  dehydrated : Bool
  deriving DecidableEq, Repr

/-- Device keys after cross-signing: the self-signing key's signature
has been attached. -/
structure SignedDeviceKeys where
  device_id : String
  dehydrated : Bool
  selfSignature : String
  deriving DecidableEq, Repr

/-- Modelled from the spec: `Account::keys_for_upload` is not under
`src/`; it collects the device keys (with the dehydrated marker), the
one-time keys and the fallback keys of the account. -/
def Account.keys_for_upload (a : DehydratedAccount) :
    DeviceKeysOut × List String × List String :=
  ({ device_id := a.deviceId, dehydrated := a.dehydratedFlag },
    a.oneTimeKeys, a.fallbackKey.toList)

/-- The private part of the user's own cross-signing identity: the
self-signing key may be absent when cross-signing was never
bootstrapped. -/
structure PrivateIdentity where
  selfSigningKey : Option String
  deriving DecidableEq, Repr

/-- Modelled from the spec: `PrivateCrossSigningIdentity::sign_device_keys`
is not under `src/`; signing fails with `MissingSigningKey` when the
self-signing key is unavailable and otherwise attaches its signature. -/
def sign_device_keys (pid : PrivateIdentity) (dk : DeviceKeysOut) :
    Except DehydrationError SignedDeviceKeys :=
  match pid.selfSigningKey with
  | none => .error .missingSigningKey
  | some sk =>
      .ok { device_id := dk.device_id, dehydrated := dk.dehydrated,
            selfSignature := sk }

/-- The encrypted serialized identity, suitable for upload: either the
current encoding (produced by `Account::dehydrate`) or the legacy
libolm-pickle encoding (produced by `Account::legacy_dehydrate`).  The
format is self-describing.  The ciphertext is embedded as an ideal
cipher: the encryption key paired with the plaintext account. -/
inductive DehydratedDeviceData where
  | v1 : List Nat → DehydratedAccount → DehydratedDeviceData
  | libolm : List Nat → DehydratedAccount → DehydratedDeviceData
  deriving DecidableEq, Repr

/-- Modelled from the spec: `Account::dehydrate` is not under `src/`;
it encrypts the private parts of the account under the pickle key using
the current encoding. -/
def Account.dehydrate (a : DehydratedAccount) (pickleKey : List Nat) :
    DehydratedDeviceData :=
  .v1 pickleKey a

/-- Modelled from the spec: `Account::legacy_dehydrate` is not under
`src/`; it encrypts the private parts of the account under the pickle
key using the legacy libolm-pickle encoding. -/
def Account.legacy_dehydrate (a : DehydratedAccount) (pickleKey : List Nat) :
    DehydratedDeviceData :=
  .libolm pickleKey a

/-- Modelled from the spec: the decryption half of rehydration
(`OlmMachine::rehydrate` down to `Account::rehydrate`) is not under
`src/`.  Decryption selects the decoding from the self-describing
payload and fails with the decoding-specific error: `Pickle` for a
corrupt current-format payload, `LegacyPickle` for a corrupt legacy
payload. -/
def rehydrate_data (pickleKey : List Nat) (data : DehydratedDeviceData) :
    Except DehydrationError DehydratedAccount :=
  match data with
  | .v1 k a => if k = pickleKey then .ok a else .error .pickle
  | .libolm k a => if k = pickleKey then .ok a else .error .legacyPickle

/-- The `put_dehydrated_device` upload request built by
`DehydratedDevice::keys_for_upload`. -/
structure PutDehydratedDeviceRequest where
  device_id : String
  device_data : DehydratedDeviceData
  device_keys : SignedDeviceKeys
  one_time_keys : List String
  fallback_keys : List String
  initial_device_display_name : Option String
  deriving DecidableEq, Repr

/-- A dehydrated device wrapped in its own isolated store, as produced
by `DehydratedDevices::create`: the fresh account plus the handle on
the user's private cross-signing identity used for signing. -/
structure DehydratedDevice where
  account : DehydratedAccount
  privateIdentity : PrivateIdentity
  deriving DecidableEq, Repr

/-- `DehydratedDevices::create`: generates a fresh device identity
flagged as dehydrated inside a brand-new isolated store.  The fresh
randomness is abstracted by a seed that determines the generated device
id. -/
def DehydratedDevices.create (seed : Nat) (pid : PrivateIdentity) :
    DehydratedDevice :=
  { account := Account.new_dehydrated (String.append "dehydrated-" (toString seed))
    privateIdentity := pid }

/-- `DehydratedDevice::keys_for_upload`, following the source: inside
one transaction, ensure a fallback key exists, collect the account's
keys for upload, sign the device keys with the self-signing key,
encrypt the account under the pickle key with the current encoding, and
bundle everything with the display name into the upload request. -/
def DehydratedDevice.keys_for_upload (d : DehydratedDevice)
    (initialDeviceDisplayName : String) (pickleKey : DehydratedDeviceKey) :
    Except DehydrationError PutDehydratedDeviceRequest :=
  let account := Account.generate_fallback_key_if_needed d.account
  let collected := Account.keys_for_upload account
  match sign_device_keys d.privateIdentity collected.1 with
  | .error e => .error e
  | .ok signed =>
      .ok { device_id := account.deviceId
            device_data := Account.dehydrate account pickleKey.inner
            device_keys := signed
            one_time_keys := collected.2.1
            fallback_keys := collected.2.2
            initial_device_display_name := some initialDeviceDisplayName }

/-- The policy knob of `DecryptionSettings`: either no trust gate, or
gate non-room-key events on a verified sender device. -/
inductive TrustRequirement where
  | untrusted : TrustRequirement
  | crossSignedOrLegacy : TrustRequirement
  deriving DecidableEq, Repr

/-- The settings controlling the to-device decryption pipeline. -/
structure DecryptionSettings where
  sender_device_trust_requirement : TrustRequirement
  deriving DecidableEq, Repr

/-- The closed enumeration of reasons a decrypted event is not fully
verified. -/
inductive VerificationLevel where
  /-- The sender identity was previously verified and has since been
  reset. -/
  | verificationViolation : VerificationLevel
  /-- The sender's cross-signing identity exists but is not verified by
  the receiver. -/
  | unverifiedIdentity : VerificationLevel
  /-- The sender device is neither cross-signed by a verified identity
  nor locally marked verified. -/
  | unsignedDevice : VerificationLevel
  /-- The sender device is not known to the receiver. -/
  | missingDevice : VerificationLevel
  deriving DecidableEq, Repr

/-- The trust classification attached to a decrypted event. -/
inductive VerificationState where
  | verified : VerificationState
  | unverified : VerificationLevel → VerificationState
  deriving DecidableEq, Repr

/-- What the receiver knows about one of the sender's devices. -/
structure DeviceInfo where
  deviceId : String
  curve25519Base64 : String
  locallyTrusted : Bool
  crossSignedByIdentity : Bool
  deriving DecidableEq, Repr

/-- What the receiver knows about the sender's cross-signing
identity. -/
structure IdentityInfo where
  verifiedByReceiver : Bool
  verificationViolation : Bool
  deriving DecidableEq, Repr

/-- The receiver-side trust state the classifier consults: the devices
the receiver knows (addressed by their curve25519 key, the sender key
of the olm envelope) and the sender's cross-signing identity, if
any. -/
structure ReceiverState where
  knownDevices : List DeviceInfo
  senderIdentity : Option IdentityInfo
  deriving DecidableEq, Repr

/-- A receiver state that knows no devices and no identity, as held by
a freshly rehydrated machine. -/
def ReceiverState.empty : ReceiverState :=
  { knownDevices := [], senderIdentity := none }

/-- Resolve the sender device from the olm sender key. -/
def lookupDevice (st : ReceiverState) (senderKey : String) : Option DeviceInfo :=
  st.knownDevices.find? (fun d => d.curve25519Base64 == senderKey)

/-- Whether the sender's identity is verified by the receiver. -/
def identityIsVerified (st : ReceiverState) : Bool :=
  match st.senderIdentity with
  | some i => i.verifiedByReceiver
  | none => false

/-- Whether the sender's identity carries a verification violation. -/
def identityViolation (st : ReceiverState) : Bool :=
  match st.senderIdentity with
  | some i => i.verificationViolation
  | none => false

/-- Whether the sender's identity exists but is not verified by the
receiver. -/
def identityExistsUnverified (st : ReceiverState) : Bool :=
  match st.senderIdentity with
  | some i => !i.verifiedByReceiver
  | none => false

/-- Whether the receiver considers a sender device verified: locally
trusted, or cross-signed by an identity the receiver verified.  Local
trust and cross-signing trust are independent, either-sufficient
paths. -/
def deviceIsVerified (st : ReceiverState) (dev : DeviceInfo) : Bool :=
  dev.locallyTrusted || (dev.crossSignedByIdentity && identityIsVerified st)

/-- Modelled from the spec: the verification-state computation is not
under `src/`.  The closed enumeration is evaluated in order of
precedence: a verification violation of the sender identity wins, then
an existing-but-unverified identity, then a device that is neither
cross-signed by a verified identity nor locally trusted; otherwise the
event is verified. -/
def computeVerificationState (st : ReceiverState) (dev : DeviceInfo) :
    VerificationState :=
  if identityViolation st then .unverified .verificationViolation
  else if identityExistsUnverified st && !dev.locallyTrusted then
    .unverified .unverifiedIdentity
  else if !(deviceIsVerified st dev) then .unverified .unsignedDevice
  else .verified

/-- The session/algorithm descriptor attached to a decrypted event:
to-device events decrypt via olm (carrying the sender's curve25519 key)
while room events decrypt via megolm (carrying a session id). -/
inductive AlgorithmInfo where
  | olmV1Curve25519AesSha2 : String → AlgorithmInfo
  | megolmV1AesSha2 : String → String → AlgorithmInfo
  deriving DecidableEq, Repr

/-- The `EncryptionInfo` attached to a `Decrypted` outcome. -/
structure EncryptionInfo where
  sender : String
  sender_device : Option String
  algorithm_info : AlgorithmInfo
  verification_state : VerificationState
  deriving DecidableEq, Repr

/-- `EncryptionInfo::session_id`: only the megolm algorithm carries a
session id; olm-decrypted events have none. -/
def EncryptionInfo.session_id (info : EncryptionInfo) : Option String :=
  match info.algorithm_info with
  | .olmV1Curve25519AesSha2 _ => none
  | .megolmV1AesSha2 _ sid => some sid

/-- The reason recorded on an `UnableToDecrypt` outcome. -/
inductive ToDeviceUnableToDecryptReason where
  | decryptionFailure : ToDeviceUnableToDecryptReason
  | unverifiedSenderDevice : ToDeviceUnableToDecryptReason
  deriving DecidableEq, Repr

/-- The decrypted payload of an olm-encrypted to-device event.  A
payload is a room-key event exactly when it carries a room key. -/
structure DecryptedPayload where
  eventType : String
  roomKey : Option RoomKey
  deriving DecidableEq, Repr

/-- The content of an `m.room.encrypted` to-device event.  The olm
decryption itself is performed by the external vodozemac library and is
embedded as its outcome: `decryptsTo` is the decrypted payload when the
receiver holds a matching olm session and the ciphertext is well
formed, and `none` when session lookup or the cipher decrypt fails. -/
structure CipherContent where
  sender : String
  sender_key : String
  decryptsTo : Option DecryptedPayload
  deriving DecidableEq, Repr

/-- One raw to-device event as it arrives from sync: structurally
malformed (no event type), a plaintext event, or an
`m.room.encrypted` event. -/
inductive RawToDeviceEvent where
  | malformed : RawToDeviceEvent
  | plain : String → RawToDeviceEvent
  | encrypted : CipherContent → RawToDeviceEvent
  deriving DecidableEq, Repr

/-- The outcome of classifying one inbound to-device event. -/
inductive ProcessedToDeviceEvent where
  | decrypted : DecryptedPayload → EncryptionInfo → ProcessedToDeviceEvent
  | plainText : String → ProcessedToDeviceEvent
  | invalid : ProcessedToDeviceEvent
  | unableToDecrypt : ToDeviceUnableToDecryptReason → ProcessedToDeviceEvent
  deriving DecidableEq, Repr

/-- Build the `EncryptionInfo` for an olm-decrypted to-device event. -/
def mkOlmEncryptionInfo (sender : String) (senderDevice : Option String)
    (curveKey : String) (vs : VerificationState) : EncryptionInfo :=
  { sender := sender
    sender_device := senderDevice
    algorithm_info := .olmV1Curve25519AesSha2 curveKey
    verification_state := vs }

/-- Modelled from the spec: the to-device decryption and trust
classifier (`OlmMachine::receive_sync_changes` down to the olm
decryption helpers) is not under `src/`; only its tests are.  One raw
event maps to exactly one outcome: a structural parse failure is
`Invalid`; an unencrypted event is `PlainText`; a failed session lookup
or cipher decrypt is `UnableToDecrypt(DecryptionFailure)`; a decrypted
payload from a device unknown to the receiver is
`UnableToDecrypt(DecryptionFailure)` unless the payload is a room-key
event, whose unknown-device check is deferred; under
`CrossSignedOrLegacy` a decrypted non-room-key payload from an
unverified sender device is `UnableToDecrypt(UnverifiedSenderDevice)`;
everything else is `Decrypted` with its encryption info. -/
def classifyEvent (settings : DecryptionSettings) (st : ReceiverState)
    (ev : RawToDeviceEvent) : ProcessedToDeviceEvent :=
  match ev with
  | .malformed => .invalid
  | .plain t => .plainText t
  | .encrypted c =>
    match c.decryptsTo with
    | none => .unableToDecrypt .decryptionFailure
    | some p =>
      match lookupDevice st c.sender_key with
      | none =>
        if p.roomKey.isSome then
          .decrypted p
            (mkOlmEncryptionInfo c.sender none c.sender_key
              (.unverified .missingDevice))
        else .unableToDecrypt .decryptionFailure
      | some dev =>
        if settings.sender_device_trust_requirement = .crossSignedOrLegacy
            && !(deviceIsVerified st dev) && !p.roomKey.isSome then
          .unableToDecrypt .unverifiedSenderDevice
        else
          .decrypted p
            (mkOlmEncryptionInfo c.sender (some dev.deviceId)
              dev.curve25519Base64 (computeVerificationState st dev))

/-- The room keys harvested from one classified event: a decrypted
room-key event contributes its inbound group session. -/
def harvestedKeys (res : ProcessedToDeviceEvent) : List RoomKey :=
  match res with
  | .decrypted p _ => p.roomKey.toList
  | _ => []

/-- Modelled from the spec: `OlmMachine::preprocess_sync_changes` is
not under `src/`.  It classifies every raw event of the batch in input
order, never aborting on a bad event, and accumulates the inbound group
sessions discovered as a side effect into the pending changes. -/
def preprocess_sync_changes (settings : DecryptionSettings)
    (st : ReceiverState) :
    List RawToDeviceEvent → List ProcessedToDeviceEvent × List RoomKey
  | [] => ([], [])
  | ev :: rest =>
    let res := classifyEvent settings st ev
    let tail := preprocess_sync_changes settings st rest
    (res :: tail.1, harvestedKeys res ++ tail.2)

/-- A rehydrated device: the reconstructed ephemeral identity (account
plus its receiver-side trust state) and a handle on the original
identity's store.  Cross-identity effects happen only through the
explicit harvest step. -/
structure RehydratedDevice where
  rehydratedAccount : DehydratedAccount
  rehydratedState : ReceiverState
  originalStore : MachineStore
  deriving DecidableEq, Repr

/-- `DehydratedDevices::rehydrate`, following the source: decrypt and
reconstruct the identity from the encrypted payload with the cached
pickle key and pair it with the original identity. -/
def DehydratedDevices.rehydrate (original : MachineStore)
    (pickleKey : DehydratedDeviceKey) (data : DehydratedDeviceData) :
    Except DehydrationError RehydratedDevice :=
  match rehydrate_data pickleKey.inner data with
  | .error e => .error e
  | .ok a =>
      .ok { rehydratedAccount := a
            rehydratedState := ReceiverState.empty
            originalStore := original }

/-- `RehydratedDevice::receive_events`, following the source: classify
the buffered events with the rehydrated identity as receiver, collect
every discovered inbound group session, persist those sessions into the
original identity's store and return the list of newly available room
keys together with the updated device. -/
def RehydratedDevice.receive_events (d : RehydratedDevice)
    (events : List RawToDeviceEvent) (settings : DecryptionSettings) :
    List RoomKey × RehydratedDevice :=
  let changes := preprocess_sync_changes settings d.rehydratedState events
  (changes.2,
    { d with originalStore := save_inbound_group_sessions d.originalStore changes.2 })

/-- One observable store effect of `RehydratedDevice::receive_events`,
in the order the source performs them. -/
inductive StoreOp where
  | openRehydratedTransaction : StoreOp
  | saveOriginalInboundGroupSessions : List RoomKey → StoreOp
  | commitRehydratedTransaction : StoreOp
  | saveRehydratedChanges : StoreOp
  deriving DecidableEq, Repr

/-- The trace of store effects performed by one execution of
`RehydratedDevice::receive_events`, following the source line by line:
open the rehydrated store's transaction, preprocess the events, save
the harvested inbound group sessions into the original store, commit
the rehydrated transaction, save the remaining rehydrated changes. -/
def receive_events_trace (d : RehydratedDevice)
    (events : List RawToDeviceEvent) (settings : DecryptionSettings) :
    List StoreOp :=
  let changes := preprocess_sync_changes settings d.rehydratedState events
  [ .openRehydratedTransaction,
    .saveOriginalInboundGroupSessions changes.2,
    .commitRehydratedTransaction,
    .saveRehydratedChanges ]

/-- C8: constructing a pickle key from a byte sequence whose length is
not 32 always fails with an error reporting the actual byte count,
while construction from exactly 32 bytes succeeds. -/
theorem pickle_key_length_validation (bytes : List Nat) :
    (bytes.length ≠ 32 →
      DehydratedDeviceKey.from_slice bytes =
        .error (.pickleKeyLength bytes.length)) ∧
    (bytes.length = 32 →
      DehydratedDeviceKey.from_slice bytes = .ok ⟨bytes⟩) := by
  constructor <;> intro h <;> simp [DehydratedDeviceKey.from_slice, h]

/-- Witness for C8 at a 31-byte and a 32-byte input. -/
theorem pickle_key_length_validation_witness :
    DehydratedDeviceKey.from_slice (List.replicate 31 0) =
      .error (.pickleKeyLength 31) ∧
    DehydratedDeviceKey.from_slice (List.replicate 32 0) =
      .ok ⟨List.replicate 32 0⟩ := by
  constructor
  · have h := (pickle_key_length_validation (List.replicate 31 0)).1 (by decide)
    simpa using h
  · exact (pickle_key_length_validation (List.replicate 32 0)).2 (by decide)

/-- C9: after saving a pickle key the cache returns that same key,
after deleting it the cache returns nothing, and before any save the
cache returns nothing. -/
theorem pickle_key_cache_contract (s : MachineStore) (k : DehydratedDeviceKey) :
    get_dehydrated_device_pickle_key (save_dehydrated_device_pickle_key s k) =
      some k ∧
    get_dehydrated_device_pickle_key (delete_dehydrated_device_pickle_key s) =
      none ∧
    get_dehydrated_device_pickle_key MachineStore.empty = none := by
  refine ⟨?_, rfl, rfl⟩
  simp [get_dehydrated_device_pickle_key, load_dehydrated_device_pickle_key,
    save_dehydrated_device_pickle_key, save_changes, Changes.default,
    save_inbound_group_sessions, delete_dehydrated_device_pickle_key]

/-- C2: in every execution of `RehydratedDevice::receive_events`, the
save of the harvested inbound group sessions into the original store
occurs, the commit of the rehydrated transaction occurs, and every such
save strictly precedes every such commit in the effect trace. -/
theorem receive_events_saves_before_commit (d : RehydratedDevice)
    (events : List RawToDeviceEvent) (settings : DecryptionSettings) :
    (∃ (i j : Nat) (keys : List RoomKey), i < j ∧
      (receive_events_trace d events settings)[i]? =
        some (StoreOp.saveOriginalInboundGroupSessions keys) ∧
      (receive_events_trace d events settings)[j]? =
        some StoreOp.commitRehydratedTransaction) ∧
    (∀ (i j : Nat) (keys : List RoomKey),
      (receive_events_trace d events settings)[i]? =
        some (StoreOp.saveOriginalInboundGroupSessions keys) →
      (receive_events_trace d events settings)[j]? =
        some StoreOp.commitRehydratedTransaction →
      i < j) := by
  constructor
  · exact ⟨1, 2, (preprocess_sync_changes settings d.rehydratedState events).2,
      by omega, rfl, rfl⟩
  · intro i j keys h1 h2
    rcases i with _ | _ | _ | _ | i <;> rcases j with _ | _ | _ | _ | j <;>
      simp_all [receive_events_trace]

/-- Witness for C2 on a concrete rehydrated device and an empty event
batch. -/
theorem receive_events_saves_before_commit_witness : (1 : Nat) < 2 := by
  exact (receive_events_saves_before_commit
    ⟨Account.new_dehydrated "DEHYDRATED", ReceiverState.empty, MachineStore.empty⟩
    [] ⟨.untrusted⟩).2 1 2 [] (by decide) (by decide)

/-- C4: for every identity produced by `DehydratedDevices::create` and
every 32-byte pickle key, rehydrating the payload produced for that
identity under that key succeeds and reconstructs the identity with the
same device id, for both the current encoding (`Account::dehydrate`)
and the legacy encoding (`Account::legacy_dehydrate`). -/
theorem dehydration_roundtrip (seed : Nat) (pid : PrivateIdentity)
    (key : DehydratedDeviceKey) (original : MachineStore)
    (h32 : key.inner.length = 32) :
    ∃ d dLegacy,
      DehydratedDevices.rehydrate original key
        (Account.dehydrate (DehydratedDevices.create seed pid).account
          key.inner) = .ok d ∧
      DehydratedDevices.rehydrate original key
        (Account.legacy_dehydrate (DehydratedDevices.create seed pid).account
          key.inner) = .ok dLegacy ∧
      d.rehydratedAccount = (DehydratedDevices.create seed pid).account ∧
      dLegacy.rehydratedAccount = (DehydratedDevices.create seed pid).account ∧
      d.rehydratedAccount.deviceId =
        (DehydratedDevices.create seed pid).account.deviceId ∧
      dLegacy.rehydratedAccount.deviceId =
        (DehydratedDevices.create seed pid).account.deviceId := by
  refine ⟨⟨(DehydratedDevices.create seed pid).account, ReceiverState.empty,
      original⟩,
    ⟨(DehydratedDevices.create seed pid).account, ReceiverState.empty,
      original⟩, ?_, ?_, rfl, rfl, rfl, rfl⟩ <;>
    simp [DehydratedDevices.rehydrate, rehydrate_data, Account.dehydrate,
      Account.legacy_dehydrate]

/-- Witness for C4 at seed 0, an absent self-signing key and the
all-zero 32-byte pickle key. -/
theorem dehydration_roundtrip_witness :
    ∃ d dLegacy,
      DehydratedDevices.rehydrate MachineStore.empty ⟨List.replicate 32 0⟩
        (Account.dehydrate (DehydratedDevices.create 0 ⟨none⟩).account
          (DehydratedDeviceKey.inner ⟨List.replicate 32 0⟩)) = .ok d ∧
      DehydratedDevices.rehydrate MachineStore.empty ⟨List.replicate 32 0⟩
        (Account.legacy_dehydrate (DehydratedDevices.create 0 ⟨none⟩).account
          (DehydratedDeviceKey.inner ⟨List.replicate 32 0⟩)) = .ok dLegacy ∧
      d.rehydratedAccount = (DehydratedDevices.create 0 ⟨none⟩).account ∧
      dLegacy.rehydratedAccount = (DehydratedDevices.create 0 ⟨none⟩).account ∧
      d.rehydratedAccount.deviceId =
        (DehydratedDevices.create 0 ⟨none⟩).account.deviceId ∧
      dLegacy.rehydratedAccount.deviceId =
        (DehydratedDevices.create 0 ⟨none⟩).account.deviceId :=
  dehydration_roundtrip 0 ⟨none⟩ ⟨List.replicate 32 0⟩ MachineStore.empty
    (by decide)

/-- C1: under `CrossSignedOrLegacy`, a successfully decrypted to-device
event from a sender device the receiver does not consider verified is
classified `UnableToDecrypt(UnverifiedSenderDevice)` when the decrypted
payload is not a room-key event, and `Decrypted` when the decrypted
payload is a room-key event from that same unverified device. -/
theorem trust_gate (st : ReceiverState) (c : CipherContent)
    (p : DecryptedPayload) (dev : DeviceInfo)
    (hdec : c.decryptsTo = some p)
    (hdev : lookupDevice st c.sender_key = some dev)
    (hunver : deviceIsVerified st dev = false) :
    (p.roomKey = none →
      classifyEvent ⟨.crossSignedOrLegacy⟩ st (.encrypted c) =
        .unableToDecrypt .unverifiedSenderDevice) ∧
    (p.roomKey.isSome = true →
      ∃ info, classifyEvent ⟨.crossSignedOrLegacy⟩ st (.encrypted c) =
        .decrypted p info) := by
  constructor <;> intro h <;>
    simp [classifyEvent, hdec, hdev, hunver, h]

/-- Witness for C1: a custom event and a room-key event from the same
concrete unverified device. -/
theorem trust_gate_witness :
    (classifyEvent ⟨.crossSignedOrLegacy⟩
      ⟨[⟨"ALICEDEVICE", "alice_curve", false, false⟩], none⟩
      (.encrypted ⟨"@alice:localhost", "alice_curve",
        some ⟨"m.new_device", none⟩⟩) =
      .unableToDecrypt .unverifiedSenderDevice) ∧
    (∃ info, classifyEvent ⟨.crossSignedOrLegacy⟩
      ⟨[⟨"ALICEDEVICE", "alice_curve", false, false⟩], none⟩
      (.encrypted ⟨"@alice:localhost", "alice_curve",
        some ⟨"m.room_key", some ⟨"!23:s.co", "sess1", "material"⟩⟩⟩) =
      .decrypted ⟨"m.room_key", some ⟨"!23:s.co", "sess1", "material"⟩⟩
        info) := by
  constructor
  · exact (trust_gate ⟨[⟨"ALICEDEVICE", "alice_curve", false, false⟩], none⟩
      ⟨"@alice:localhost", "alice_curve", some ⟨"m.new_device", none⟩⟩
      ⟨"m.new_device", none⟩ ⟨"ALICEDEVICE", "alice_curve", false, false⟩
      (by decide) (by decide) (by decide)).1 (by decide)
  · exact (trust_gate ⟨[⟨"ALICEDEVICE", "alice_curve", false, false⟩], none⟩
      ⟨"@alice:localhost", "alice_curve",
        some ⟨"m.room_key", some ⟨"!23:s.co", "sess1", "material"⟩⟩⟩
      ⟨"m.room_key", some ⟨"!23:s.co", "sess1", "material"⟩⟩
      ⟨"ALICEDEVICE", "alice_curve", false, false⟩
      (by decide) (by decide) (by decide)).2 (by decide)

/-- C5: the classifier returns exactly one outcome per input event in
input order, a bad event never aborting the rest of the batch; and the
concrete batch decryptable-encrypted, plaintext, malformed-no-type,
garbled-cipher yields exactly `Decrypted`, `PlainText`, `Invalid`,
`UnableToDecrypt(DecryptionFailure)` in that order. -/
theorem batch_order_preserved :
    (∀ settings st events,
      (preprocess_sync_changes settings st events).1 =
        events.map (classifyEvent settings st)) ∧
    (∀ settings st events,
      (preprocess_sync_changes settings st events).1.length =
        events.length) ∧
    ((preprocess_sync_changes ⟨.untrusted⟩
        ⟨[⟨"ALICEDEVICE", "alice_curve", false, false⟩], none⟩
        [ .encrypted ⟨"@alice:localhost", "alice_curve",
            some ⟨"rtc.call.encryption_keys", none⟩⟩,
          .plain "m.new_device",
          .malformed,
          .encrypted ⟨"@alice:example.org", "alice_curve", none⟩ ]).1 =
      [ .decrypted ⟨"rtc.call.encryption_keys", none⟩
          (mkOlmEncryptionInfo "@alice:localhost" (some "ALICEDEVICE")
            "alice_curve" (.unverified .unsignedDevice)),
        .plainText "m.new_device",
        .invalid,
        .unableToDecrypt .decryptionFailure ]) := by
  have hmap : ∀ (settings : DecryptionSettings) (st : ReceiverState)
      (events : List RawToDeviceEvent),
      (preprocess_sync_changes settings st events).1 =
        events.map (classifyEvent settings st) := by
    intro settings st events
    induction events with
    | nil => rfl
    | cons ev rest ih => simp [preprocess_sync_changes, ih]
  refine ⟨hmap, ?_, by decide⟩
  intro settings st events
  rw [hmap]
  exact List.length_map events (classifyEvent settings st)

/-- C7: a successfully decrypted to-device event from a sender device
the receiver marked locally trusted carries `Verified` in its
encryption info, even when no cross-signing chain covers the device
(the receiver holds no cross-signing identity for the sender and the
device need not be cross-signed), under any trust requirement. -/
theorem locally_trusted_is_verified (settings : DecryptionSettings)
    (st : ReceiverState) (c : CipherContent) (p : DecryptedPayload)
    (dev : DeviceInfo)
    (hdec : c.decryptsTo = some p)
    (hdev : lookupDevice st c.sender_key = some dev)
    (hid : st.senderIdentity = none)
    (htrust : dev.locallyTrusted = true) :
    classifyEvent settings st (.encrypted c) =
      .decrypted p
        (mkOlmEncryptionInfo c.sender (some dev.deviceId)
          dev.curve25519Base64 .verified) := by
  have hver : deviceIsVerified st dev = true := by
    simp [deviceIsVerified, htrust]
  simp [classifyEvent, hdec, hdev, hver, computeVerificationState,
    identityViolation, identityExistsUnverified, hid, htrust]

/-- Witness for C7: a locally trusted, non-cross-signed concrete device
with no sender identity, under the strict trust requirement. -/
theorem locally_trusted_is_verified_witness :
    classifyEvent ⟨.crossSignedOrLegacy⟩
      ⟨[⟨"ALICEDEVICE", "alice_curve", true, false⟩], none⟩
      (.encrypted ⟨"@alice:localhost", "alice_curve",
        some ⟨"m.new_device", none⟩⟩) =
      .decrypted ⟨"m.new_device", none⟩
        (mkOlmEncryptionInfo "@alice:localhost" (some "ALICEDEVICE")
          "alice_curve" .verified) :=
  locally_trusted_is_verified ⟨.crossSignedOrLegacy⟩
    ⟨[⟨"ALICEDEVICE", "alice_curve", true, false⟩], none⟩
    ⟨"@alice:localhost", "alice_curve", some ⟨"m.new_device", none⟩⟩
    ⟨"m.new_device", none⟩ ⟨"ALICEDEVICE", "alice_curve", true, false⟩
    (by decide) (by decide) (by decide) (by decide)

/-- C10: every to-device event the classifier decrypts (to-device
decryption is olm) carries an encryption info with no session id and,
when the sender device is resolvable, an
`OlmV1Curve25519AesSha2` algorithm info holding that device's
curve25519 key in base64. -/
theorem olm_encryption_info_shape (settings : DecryptionSettings)
    (st : ReceiverState) (c : CipherContent) (p : DecryptedPayload)
    (info : EncryptionInfo)
    (h : classifyEvent settings st (.encrypted c) = .decrypted p info) :
    info.session_id = none ∧
    (∀ dev, lookupDevice st c.sender_key = some dev →
      info.algorithm_info = .olmV1Curve25519AesSha2 dev.curve25519Base64) := by
  rcases hc : c.decryptsTo with _ | p'
  · simp [classifyEvent, hc] at h
  · rcases hd : lookupDevice st c.sender_key with _ | dev
    · by_cases hrk : p'.roomKey.isSome = true
      · simp [classifyEvent, hc, hd, hrk] at h
        refine ⟨?_, ?_⟩
        · rw [← h.2]
          simp [EncryptionInfo.session_id, mkOlmEncryptionInfo]
        · intro dev hdev
          cases hdev
      · simp [classifyEvent, hc, hd, hrk] at h
    · simp only [classifyEvent, hc, hd] at h
      split at h
      · cases h
      · injection h with h1 h2
        refine ⟨?_, ?_⟩
        · rw [← h2]
          simp [EncryptionInfo.session_id, mkOlmEncryptionInfo]
        · intro dev' hdev'
          injection hdev' with hdd
          subst hdd
          rw [← h2]
          rfl

/-- Witness for C10 at a concrete decrypted event from a known
device. -/
theorem olm_encryption_info_shape_witness :
    EncryptionInfo.session_id
      (mkOlmEncryptionInfo "@alice:localhost" (some "ALICEDEVICE")
        "alice_curve" (.unverified .unsignedDevice)) = none ∧
    AlgorithmInfo.olmV1Curve25519AesSha2 "alice_curve" =
      (mkOlmEncryptionInfo "@alice:localhost" (some "ALICEDEVICE")
        "alice_curve" (.unverified .unsignedDevice)).algorithm_info := by
  have h := olm_encryption_info_shape ⟨.untrusted⟩
    ⟨[⟨"ALICEDEVICE", "alice_curve", false, false⟩], none⟩
    ⟨"@alice:localhost", "alice_curve",
      some ⟨"rtc.call.encryption_keys", none⟩⟩
    ⟨"rtc.call.encryption_keys", none⟩
    (mkOlmEncryptionInfo "@alice:localhost" (some "ALICEDEVICE")
      "alice_curve" (.unverified .unsignedDevice)) (by decide)
  exact ⟨h.1, by
    have h2 := h.2 ⟨"ALICEDEVICE", "alice_curve", false, false⟩ (by decide)
    rw [h2]⟩

/-- C6: the upload request built by `DehydratedDevice::keys_for_upload`
for an identity produced by `DehydratedDevices::create` bundles the
device id, the encrypted device data, signed device keys carrying the
`dehydrated: true` marker, a non-empty set of one-time keys, a
non-empty set of fallback keys, and the provided display name. -/
theorem keys_for_upload_bundle (seed : Nat) (sk : String) (name : String)
    (key : DehydratedDeviceKey) :
    ∃ req,
      (DehydratedDevices.create seed ⟨some sk⟩).keys_for_upload name key =
        .ok req ∧
      req.device_id = (DehydratedDevices.create seed ⟨some sk⟩).account.deviceId ∧
      req.one_time_keys ≠ [] ∧
      req.fallback_keys ≠ [] ∧
      req.initial_device_display_name = some name ∧
      req.device_keys.dehydrated = true ∧
      req.device_data =
        Account.dehydrate
          (Account.generate_fallback_key_if_needed
            (DehydratedDevices.create seed ⟨some sk⟩).account) key.inner := by
  refine ⟨_, rfl, ?_, ?_, ?_, ?_, ?_, ?_⟩ <;>
    simp [DehydratedDevice.keys_for_upload, DehydratedDevices.create,
      Account.new_dehydrated, Account.generate_fallback_key_if_needed,
      Account.keys_for_upload, sign_device_keys, Account.dehydrate,
      maxOneTimeKeys, List.range_succ]

/-- C3: a room key absent from the original identity's store before
rehydration becomes retrievable by room id and session id from that
store after rehydrating with the cached pickle key and feeding the
buffered event through `receive_events`, which also returns that room
key in its result list. -/
theorem rehydration_end_to_end (original : MachineStore)
    (key : DehydratedDeviceKey) (data : DehydratedDeviceData)
    (d : RehydratedDevice) (c : CipherContent) (p : DecryptedPayload)
    (k : RoomKey)
    (hlookup : get_inbound_group_session original k.roomId k.sessionId = none)
    (hreh : DehydratedDevices.rehydrate original key data = .ok d)
    (hdec : c.decryptsTo = some p)
    (hrk : p.roomKey = some k) :
    (d.receive_events [.encrypted c] ⟨.untrusted⟩).1 = [k] ∧
    get_inbound_group_session
      (d.receive_events [.encrypted c] ⟨.untrusted⟩).2.originalStore
      k.roomId k.sessionId = some k := by
  unfold DehydratedDevices.rehydrate at hreh
  rcases hx : rehydrate_data key.inner data with _ | a <;> rw [hx] at hreh
  · cases hreh
  · injection hreh with hd
    subst hd
    have hclass : classifyEvent ⟨.untrusted⟩ ReceiverState.empty
        (.encrypted c) =
        .decrypted p
          (mkOlmEncryptionInfo c.sender none c.sender_key
            (.unverified .missingDevice)) := by
      simp [classifyEvent, hdec, lookupDevice, ReceiverState.empty, hrk]
    have hpre : preprocess_sync_changes ⟨.untrusted⟩ ReceiverState.empty
        [.encrypted c] =
        ([.decrypted p
            (mkOlmEncryptionInfo c.sender none c.sender_key
              (.unverified .missingDevice))], [k]) := by
      simp [preprocess_sync_changes, hclass, harvestedKeys, hrk]
    have hanyF : original.inboundGroupSessions.any
        (sessionMatches k.roomId k.sessionId) = false := by
      rw [List.any_eq_false]
      intro x hx
      have hnone := List.find?_eq_none.mp hlookup x hx
      simpa using hnone
    have hsave : save_inbound_group_sessions original [k] =
        { original with inboundGroupSessions :=
            original.inboundGroupSessions ++ [k] } := by
      simp [save_inbound_group_sessions, upsertSession, hanyF]
    constructor
    · simp [RehydratedDevice.receive_events, hpre]
    · simp only [RehydratedDevice.receive_events, hpre]
      rw [hsave]
      unfold get_inbound_group_session at hlookup ⊢
      simp only [List.find?_append, hlookup, Option.none_or]
      simp [List.find?_cons, sessionMatches]

/-- Witness for C3: a concrete empty original store, the all-zero
pickle key and a buffered event carrying one concrete room key. -/
theorem rehydration_end_to_end_witness :
    (RehydratedDevice.receive_events
      ⟨Account.new_dehydrated "DEH", ReceiverState.empty, MachineStore.empty⟩
      [.encrypted ⟨"@alice:localhost", "alice_curve",
        some ⟨"m.room_key", some ⟨"!test:example.org", "sess1", "material"⟩⟩⟩]
      ⟨.untrusted⟩).1 = [⟨"!test:example.org", "sess1", "material"⟩] ∧
    get_inbound_group_session
      (RehydratedDevice.receive_events
        ⟨Account.new_dehydrated "DEH", ReceiverState.empty, MachineStore.empty⟩
        [.encrypted ⟨"@alice:localhost", "alice_curve",
          some ⟨"m.room_key", some ⟨"!test:example.org", "sess1", "material"⟩⟩⟩]
        ⟨.untrusted⟩).2.originalStore
      "!test:example.org" "sess1" =
      some ⟨"!test:example.org", "sess1", "material"⟩ :=
  rehydration_end_to_end MachineStore.empty ⟨List.replicate 32 0⟩
    (Account.dehydrate (Account.new_dehydrated "DEH") (List.replicate 32 0))
    ⟨Account.new_dehydrated "DEH", ReceiverState.empty, MachineStore.empty⟩
    ⟨"@alice:localhost", "alice_curve",
      some ⟨"m.room_key", some ⟨"!test:example.org", "sess1", "material"⟩⟩⟩
    ⟨"m.room_key", some ⟨"!test:example.org", "sess1", "material"⟩⟩
    ⟨"!test:example.org", "sess1", "material"⟩
    (by decide) (by rfl) (by decide) (by decide)

end MatrixSdkCrypto
